import Mathlib

/-
  Verification of the tcp-proxy connection lifecycle engine (src/main.rs).

  The tokio runtime and the OS sockets are modelled as environment oracles:
  each asynchronous call of the source (`TcpStream::connect` bounded by
  `time::timeout`, `tokio::io::copy_bidirectional` optionally bounded by
  `time::timeout`, `shutdown`, `listener.accept`, `signal::ctrl_c`,
  `JoinSet::join_next`) is given its outcome by the environment, and the
  code is embedded as a pure function from those outcomes to the trace of
  observations (log lines) and socket-close actions it performs.
  Durations are natural numbers (`Duration::is_zero` becomes `= 0`);
  the `u64` connection-id counter is modelled modulo 2 ^ 64.
-/

namespace TcpProxy

/-- Error values carried by `std::io::Error`; only their message matters here. -/
abbrev IOError := String

/-- Outcome of `time::timeout(connect_timeout, TcpStream::connect(remote_addr))`:
whether the timeout elapsed first, and, if not, the result of the connect. -/
structure ConnectEnv where
  elapsed : Bool
  result : Except IOError Unit
deriving Repr

/-- Outcome of `tokio::io::copy_bidirectional`: whether the (non-zero) session
timeout would elapse before it completes, and the value it completes with —
`(client_to_remote, remote_to_client)` byte counts on success. -/
structure RelayEnv where
  elapsed : Bool
  result : Except IOError (Nat × Nat)
deriving Repr

/-- Outcomes of the two final `shutdown()` calls; the source discards both
with `let _ = ...`. -/
structure CloseEnv where
  clientResult : Except IOError Unit
  remoteResult : Except IOError Unit
deriving Repr

/-- The structured log lines emitted by `handle_connection`. -/
inductive Obs where
  | connected
  | failedToConnect (e : IOError)
  | connectTimeout (t : Nat)
  | closed (client_to_remote remote_to_client : Nat)
  | sessionTimeout (t : Nat)
  | pipingError (e : IOError)
deriving DecidableEq, Repr

/-- Everything a connection handler does that is visible from outside:
log lines and the shutdown of each of its two sockets. -/
inductive Event where
  | obs (o : Obs)
  | closeClient
  | closeRemote
deriving DecidableEq, Repr

/-- True exactly on a session-timeout log line. -/
def Event.isSessionTimeoutObs : Event → Bool
  | .obs (.sessionTimeout _) => true
  | _ => false

/-- True exactly on a normal-close log line (the one carrying byte counters). -/
def Event.isClosedObs : Event → Bool
  | .obs (.closed _ _) => true
  | _ => false

/-- True on the two socket-close actions. -/
def Event.isClose : Event → Bool
  | .closeClient => true
  | .closeRemote => true
  | _ => false

/-- Shallow embedding of `handle_connection` (src/main.rs lines 45-104).
The returned list is the ordered trace of log lines and socket closes.
`_cl` carries the results of the two `shutdown()` calls; the source binds
them to `_`, so the function never inspects it. -/
def handle_connection (connect_timeout session_timeout : Nat)
    (cenv : ConnectEnv) (renv : RelayEnv) (_cl : CloseEnv) : List Event :=
  if cenv.elapsed then
    [.obs (.connectTimeout connect_timeout), .closeClient]
  else
    match cenv.result with
    | .error e => [.obs (.failedToConnect e), .closeClient]
    | .ok _ =>
      let res : Except IOError (Option (Nat × Nat)) :=
        if session_timeout = 0 then
          renv.result.map some
        else
          if renv.elapsed then .ok none else renv.result.map some
      [.obs .connected] ++
      (match res with
        | .ok (some (c_to_r, r_to_c)) => [.obs (.closed c_to_r r_to_c)]
        | .ok none => [.obs (.sessionTimeout session_timeout)]
        | .error e => [.obs (.pipingError e)]) ++
      [.closeClient, .closeRemote]

example :
    handle_connection 5 0 ⟨false, .ok ()⟩ ⟨false, .ok (3, 7)⟩ ⟨.ok (), .ok ()⟩ =
      [.obs .connected, .obs (.closed 3 7), .closeClient, .closeRemote] := by
  decide

example :
    handle_connection 5 2 ⟨false, .ok ()⟩ ⟨true, .ok (3, 7)⟩ ⟨.ok (), .ok ()⟩ =
      [.obs .connected, .obs (.sessionTimeout 2), .closeClient, .closeRemote] := by
  decide

example :
    handle_connection 5 2 ⟨true, .ok ()⟩ ⟨false, .ok (0, 0)⟩ ⟨.ok (), .ok ()⟩ =
      [.obs (.connectTimeout 5), .closeClient] := by
  decide

/-- One resolution of the `tokio::select!` in `main`: either `ctrl_c`
completes, or `listener.accept()` completes with `Ok` or `Err`. -/
inductive LoopEvent where
  | ctrlC
  | acceptOk (client : String)
  | acceptErr (e : IOError)
deriving DecidableEq, Repr

/-- The log lines emitted by `main`. -/
inductive MainLog where
  | accepted (id : Nat) (client : String)
  | acceptFailed (e : IOError)
  | ctrlCReceived
  | taskFailed (e : IOError)
  | shutdownComplete
deriving DecidableEq, Repr

/-- The connection-id counter is a `u64`; `next_conn_id += 1` wraps at this
modulus. -/
def u64Size : Nat := 2 ^ 64

/-- What the accept loop has done by the time it is observed: the handler
tasks it spawned (connection id paired with client address, in accept
order), its log, and whether it has executed `break` (ctrl_c received). -/
structure LoopResult where
  conns : List (Nat × String)
  log : List MainLog
  stopped : Bool
deriving DecidableEq, Repr

/-- Shallow embedding of the `loop { tokio::select! { ... } }` of `main`
(src/main.rs lines 130-151), run over a finite list of select outcomes.
`next_conn_id` starts at 1 in `main`; a successful accept assigns
`id = next_conn_id`, increments the counter (wrapping as a `u64`), logs the
accept and spawns the handler; a failed accept only logs a warning;
`ctrl_c` breaks out of the loop, leaving later events unprocessed.
An exhausted event list means the loop is still suspended in `select!`. -/
def acceptLoop (next_conn_id : Nat) : List LoopEvent → LoopResult
  | [] => ⟨[], [], false⟩
  | .ctrlC :: _ => ⟨[], [.ctrlCReceived], true⟩
  | .acceptOk client :: rest =>
      let id := next_conn_id
      let r := acceptLoop ((next_conn_id + 1) % u64Size) rest
      ⟨(id, client) :: r.conns, .accepted id client :: r.log, r.stopped⟩
  | .acceptErr e :: rest =>
      let r := acceptLoop next_conn_id rest
      ⟨r.conns, .acceptFailed e :: r.log, r.stopped⟩

/-- The drain loop `while let Some(res) = tasks.join_next().await` of `main`
(src/main.rs lines 156-160): each task that ended with an error is logged;
successful results produce no output; every result is consumed. -/
def drainLog : List (Except IOError Unit) → List MainLog
  | [] => []
  | .ok _ :: rest => drainLog rest
  | .error e :: rest => .taskFailed e :: drainLog rest

/-- Observable outcome of `main` once it returns: its log and process exit
code. -/
structure MainOutcome where
  log : List MainLog
  exitCode : Nat
deriving DecidableEq, Repr

/-- Shallow embedding of `main` after a successful bind (src/main.rs lines
128-164): run the accept loop over the environment's select outcomes; if
`ctrl_c` broke the loop, join every spawned task (`taskResults` lists the
join results, in completion order), log \"Shutdown complete.\" and return
`Ok(())` (exit status 0). If the event list ran out without a signal, the
loop is still suspended and `main` has not returned (`none`). -/
def runMain (events : List LoopEvent) (taskResults : List (Except IOError Unit)) :
    Option MainOutcome :=
  let r := acceptLoop 1 events
  if r.stopped then
    some ⟨r.log ++ drainLog taskResults ++ [.shutdownComplete], 0⟩
  else
    none

example :
    acceptLoop 1 [.acceptOk "a", .acceptErr "busy", .acceptOk "b", .ctrlC, .acceptOk "c"] =
      ⟨[(1, "a"), (2, "b")],
       [.accepted 1 "a", .acceptFailed "busy", .accepted 2 "b", .ctrlCReceived],
       true⟩ := by
  decide

example :
    runMain [.acceptOk "a", .ctrlC] [.error "panic", .ok ()] =
      some ⟨[.accepted 1 "a", .ctrlCReceived, .taskFailed "panic", .shutdownComplete], 0⟩ := by
  decide

/-- The log line the relay phase would emit, as a function of the session
timeout and the relay environment; proof-side abbreviation for the value
`res` computed at src/main.rs lines 69-84 together with the `match res`
at lines 86-100. -/
def relayObs (session_timeout : Nat) (renv : RelayEnv) : Obs :=
  if session_timeout = 0 then
    match renv.result with
    | .ok (c_to_r, r_to_c) => .closed c_to_r r_to_c
    | .error e => .pipingError e
  else if renv.elapsed then .sessionTimeout session_timeout
  else
    match renv.result with
    | .ok (c_to_r, r_to_c) => .closed c_to_r r_to_c
    | .error e => .pipingError e

theorem handle_connection_connect_ok (ct st : Nat) (renv : RelayEnv) (cl : CloseEnv) :
    handle_connection ct st ⟨false, .ok ()⟩ renv cl =
      [.obs .connected, .obs (relayObs st renv), .closeClient, .closeRemote] := by
  obtain ⟨re, rr⟩ := renv
  by_cases hst : st = 0
  · rcases rr with e | ⟨n1, n2⟩ <;>
      simp [handle_connection, relayObs, hst, Except.map]
  · cases re
    · rcases rr with e | ⟨n1, n2⟩ <;>
        simp [handle_connection, relayObs, hst, Except.map]
    · simp [handle_connection, relayObs, hst]

theorem handle_connection_connect_elapsed (ct st : Nat) (cr : Except IOError Unit)
    (renv : RelayEnv) (cl : CloseEnv) :
    handle_connection ct st ⟨true, cr⟩ renv cl =
      [.obs (.connectTimeout ct), .closeClient] := by
  simp [handle_connection]

theorem handle_connection_connect_error (ct st : Nat) (e : IOError)
    (renv : RelayEnv) (cl : CloseEnv) :
    handle_connection ct st ⟨false, .error e⟩ renv cl =
      [.obs (.failedToConnect e), .closeClient] := by
  simp [handle_connection]

/-- Claim C1: on every path into the Closed state the handler closes the
client socket exactly once, closes the remote socket exactly once when the
connect succeeded (and never otherwise), performs the socket closes as the
last actions of its trace, and the trace does not depend on the results of
the close calls themselves (a failed close is not escalated). -/
theorem claim_C1_teardown (ct st : Nat) (cenv : ConnectEnv) (renv : RelayEnv)
    (cl cl' : CloseEnv) :
    ((handle_connection ct st cenv renv cl).count .closeClient = 1
      ∧ (handle_connection ct st cenv renv cl).count .closeRemote =
          (if !cenv.elapsed && cenv.result.isOk then 1 else 0))
    ∧ (∃ front, front.all (fun ev => !ev.isClose) = true
        ∧ (handle_connection ct st cenv renv cl = front ++ [.closeClient]
           ∨ handle_connection ct st cenv renv cl = front ++ [.closeClient, .closeRemote]))
    ∧ handle_connection ct st cenv renv cl = handle_connection ct st cenv renv cl' := by
  obtain ⟨ce, cr⟩ := cenv
  cases ce
  · rcases cr with e | ⟨⟩
    · rw [handle_connection_connect_error, handle_connection_connect_error]
      refine ⟨⟨by simp, by simp [Except.isOk, Except.toBool]⟩,
        ⟨[.obs (.failedToConnect e)], by simp [Event.isClose], Or.inl rfl⟩, rfl⟩
    · rw [handle_connection_connect_ok, handle_connection_connect_ok]
      refine ⟨⟨by simp, by simp [Except.isOk, Except.toBool]⟩,
        ⟨[.obs .connected, .obs (relayObs st renv)], ?_, Or.inr rfl⟩, rfl⟩
      cases relayObs st renv <;> simp [Event.isClose]
  · rw [handle_connection_connect_elapsed, handle_connection_connect_elapsed]
    exact ⟨⟨by simp, by simp⟩,
      ⟨[.obs (.connectTimeout ct)], by simp [Event.isClose], Or.inl rfl⟩, rfl⟩

theorem claim_C1_teardown_witness :
    ((handle_connection 5 0 ⟨false, .ok ()⟩ ⟨false, .ok (3, 7)⟩ ⟨.error "x", .ok ()⟩).count
        .closeClient = 1
      ∧ (handle_connection 5 0 ⟨false, .ok ()⟩ ⟨false, .ok (3, 7)⟩ ⟨.error "x", .ok ()⟩).count
          .closeRemote =
          (if !(ConnectEnv.mk false (.ok ())).elapsed
              && (ConnectEnv.mk false (.ok ())).result.isOk then 1 else 0))
    ∧ (∃ front, front.all (fun ev => !ev.isClose) = true
        ∧ (handle_connection 5 0 ⟨false, .ok ()⟩ ⟨false, .ok (3, 7)⟩ ⟨.error "x", .ok ()⟩ =
              front ++ [.closeClient]
           ∨ handle_connection 5 0 ⟨false, .ok ()⟩ ⟨false, .ok (3, 7)⟩ ⟨.error "x", .ok ()⟩ =
              front ++ [.closeClient, .closeRemote]))
    ∧ handle_connection 5 0 ⟨false, .ok ()⟩ ⟨false, .ok (3, 7)⟩ ⟨.error "x", .ok ()⟩ =
        handle_connection 5 0 ⟨false, .ok ()⟩ ⟨false, .ok (3, 7)⟩ ⟨.ok (), .error "y"⟩ :=
  claim_C1_teardown 5 0 ⟨false, .ok ()⟩ ⟨false, .ok (3, 7)⟩ ⟨.error "x", .ok ()⟩
    ⟨.ok (), .error "y"⟩

/-- Claim C2: when the connect succeeds and the relay completes normally
with byte counts `(n1, n2)` (for a non-zero session timeout, before the
timeout elapses), the handler emits the closed observation carrying
`client_to_remote = n1` and `remote_to_client = n2` and then closes both
sockets. -/
theorem claim_C2_normal_close (ct st n1 n2 : Nat) (cenv : ConnectEnv)
    (renv : RelayEnv) (cl : CloseEnv)
    (hce : cenv.elapsed = false) (hcr : cenv.result = .ok ())
    (hrr : renv.result = .ok (n1, n2))
    (hdone : st = 0 ∨ renv.elapsed = false) :
    handle_connection ct st cenv renv cl =
      [.obs .connected, .obs (.closed n1 n2), .closeClient, .closeRemote] := by
  obtain ⟨ce, cr⟩ := cenv
  simp only at hce hcr
  subst hce hcr
  rw [handle_connection_connect_ok]
  rcases hdone with hst | hre
  · simp [relayObs, hst, hrr]
  · by_cases hst : st = 0 <;> simp [relayObs, hst, hre, hrr]

theorem claim_C2_normal_close_witness :
    handle_connection 5 9 ⟨false, .ok ()⟩ ⟨false, .ok (3, 7)⟩ ⟨.ok (), .ok ()⟩ =
      [.obs .connected, .obs (.closed 3 7), .closeClient, .closeRemote] :=
  claim_C2_normal_close 5 9 3 7 ⟨false, .ok ()⟩ ⟨false, .ok (3, 7)⟩ ⟨.ok (), .ok ()⟩
    rfl rfl rfl (Or.inr rfl)

/-- Claim C3: with `session_timeout = 0` the relay phase is not raced
against any timer: no session-timeout observation is ever emitted, the
trace does not depend on whether a hypothetical timer would have elapsed,
and (when the connect succeeded) the relay's natural outcome — end-of-
stream with byte counts, or an I/O error — is what gets reported. -/
theorem claim_C3_zero_timeout_unbounded (ct : Nat) (cenv : ConnectEnv)
    (rr : Except IOError (Nat × Nat)) (b b' : Bool) (cl : CloseEnv) :
    ((handle_connection ct 0 cenv ⟨b, rr⟩ cl).all
        (fun ev => !ev.isSessionTimeoutObs) = true)
    ∧ handle_connection ct 0 cenv ⟨b, rr⟩ cl = handle_connection ct 0 cenv ⟨b', rr⟩ cl
    ∧ (∀ n1 n2, rr = .ok (n1, n2) → cenv.elapsed = false → cenv.result = .ok () →
        handle_connection ct 0 cenv ⟨b, rr⟩ cl =
          [.obs .connected, .obs (.closed n1 n2), .closeClient, .closeRemote])
    ∧ (∀ e, rr = .error e → cenv.elapsed = false → cenv.result = .ok () →
        handle_connection ct 0 cenv ⟨b, rr⟩ cl =
          [.obs .connected, .obs (.pipingError e), .closeClient, .closeRemote]) := by
  obtain ⟨ce, cr⟩ := cenv
  cases ce
  · rcases cr with e | ⟨⟩
    · rw [handle_connection_connect_error, handle_connection_connect_error]
      refine ⟨by simp [Event.isSessionTimeoutObs], rfl, by simp, by simp⟩
    · rw [handle_connection_connect_ok, handle_connection_connect_ok]
      rcases rr with e | ⟨n1, n2⟩ <;>
        refine ⟨by simp [relayObs, Event.isSessionTimeoutObs],
          by simp [relayObs], by simp [relayObs], by simp [relayObs]⟩
  · rw [handle_connection_connect_elapsed, handle_connection_connect_elapsed]
    exact ⟨by simp [Event.isSessionTimeoutObs], rfl, by simp, by simp⟩

theorem claim_C3_zero_timeout_unbounded_witness :
    ((handle_connection 5 0 ⟨false, .ok ()⟩ ⟨true, .ok (3, 7)⟩ ⟨.ok (), .ok ()⟩).all
        (fun ev => !ev.isSessionTimeoutObs) = true)
    ∧ handle_connection 5 0 ⟨false, .ok ()⟩ ⟨true, .ok (3, 7)⟩ ⟨.ok (), .ok ()⟩ =
        handle_connection 5 0 ⟨false, .ok ()⟩ ⟨false, .ok (3, 7)⟩ ⟨.ok (), .ok ()⟩
    ∧ (∀ n1 n2, (Except.ok (3, 7) : Except IOError (Nat × Nat)) = .ok (n1, n2) →
        (ConnectEnv.mk false (.ok ())).elapsed = false →
        (ConnectEnv.mk false (.ok ())).result = .ok () →
        handle_connection 5 0 ⟨false, .ok ()⟩ ⟨true, .ok (3, 7)⟩ ⟨.ok (), .ok ()⟩ =
          [.obs .connected, .obs (.closed n1 n2), .closeClient, .closeRemote])
    ∧ (∀ e, (Except.ok (3, 7) : Except IOError (Nat × Nat)) = .error e →
        (ConnectEnv.mk false (.ok ())).elapsed = false →
        (ConnectEnv.mk false (.ok ())).result = .ok () →
        handle_connection 5 0 ⟨false, .ok ()⟩ ⟨true, .ok (3, 7)⟩ ⟨.ok (), .ok ()⟩ =
          [.obs .connected, .obs (.pipingError e), .closeClient, .closeRemote]) :=
  claim_C3_zero_timeout_unbounded 5 ⟨false, .ok ()⟩ (.ok (3, 7)) true false ⟨.ok (), .ok ()⟩

/-- Claim C4: with a non-zero session timeout that elapses while the relay
is still running, the handler emits the session-timeout warning (not the
normal-close observation), reports no byte counters, and closes both
sockets. -/
theorem claim_C4_session_timeout (ct st : Nat) (cenv : ConnectEnv) (renv : RelayEnv)
    (cl : CloseEnv) (hst : st ≠ 0) (hre : renv.elapsed = true)
    (hce : cenv.elapsed = false) (hcr : cenv.result = .ok ()) :
    handle_connection ct st cenv renv cl =
      [.obs .connected, .obs (.sessionTimeout st), .closeClient, .closeRemote]
    ∧ (handle_connection ct st cenv renv cl).all (fun ev => !ev.isClosedObs) = true := by
  obtain ⟨ce, cr⟩ := cenv
  simp only at hce hcr
  subst hce hcr
  rw [handle_connection_connect_ok]
  have hobs : relayObs st renv = .sessionTimeout st := by simp [relayObs, hst, hre]
  rw [hobs]
  exact ⟨rfl, by simp [Event.isClosedObs]⟩

theorem claim_C4_session_timeout_witness :
    handle_connection 5 2 ⟨false, .ok ()⟩ ⟨true, .error "late"⟩ ⟨.ok (), .ok ()⟩ =
      [.obs .connected, .obs (.sessionTimeout 2), .closeClient, .closeRemote]
    ∧ (handle_connection 5 2 ⟨false, .ok ()⟩ ⟨true, .error "late"⟩ ⟨.ok (), .ok ()⟩).all
        (fun ev => !ev.isClosedObs) = true :=
  claim_C4_session_timeout 5 2 ⟨false, .ok ()⟩ ⟨true, .error "late"⟩ ⟨.ok (), .ok ()⟩
    (by decide) rfl rfl rfl

/-- Claim C5: when the connect times out or fails, the handler closes the
client socket and stops — the trace contains neither a remote-socket close
nor any relayed-bytes observation — and the two failure cases are reported
by distinct observations. -/
theorem claim_C5_connect_failure (ct st : Nat) (cr : Except IOError Unit)
    (e : IOError) (renv : RelayEnv) (cl : CloseEnv) :
    (handle_connection ct st ⟨true, cr⟩ renv cl =
        [.obs (.connectTimeout ct), .closeClient])
    ∧ (handle_connection ct st ⟨false, .error e⟩ renv cl =
        [.obs (.failedToConnect e), .closeClient])
    ∧ (handle_connection ct st ⟨true, cr⟩ renv cl).all
        (fun ev => !(ev == .closeRemote) && !ev.isClosedObs && !(ev == .obs .connected)) = true
    ∧ (handle_connection ct st ⟨false, .error e⟩ renv cl).all
        (fun ev => !(ev == .closeRemote) && !ev.isClosedObs && !(ev == .obs .connected)) = true
    ∧ Obs.connectTimeout ct ≠ Obs.failedToConnect e := by
  rw [handle_connection_connect_elapsed, handle_connection_connect_error]
  exact ⟨rfl, rfl, by simp [Event.isClosedObs], by simp [Event.isClosedObs], by simp⟩

theorem claim_C5_connect_failure_witness :
    (handle_connection 5 0 ⟨true, .ok ()⟩ ⟨false, .ok (0, 0)⟩ ⟨.ok (), .ok ()⟩ =
        [.obs (.connectTimeout 5), .closeClient])
    ∧ (handle_connection 5 0 ⟨false, .error "refused"⟩ ⟨false, .ok (0, 0)⟩ ⟨.ok (), .ok ()⟩ =
        [.obs (.failedToConnect "refused"), .closeClient])
    ∧ (handle_connection 5 0 ⟨true, .ok ()⟩ ⟨false, .ok (0, 0)⟩ ⟨.ok (), .ok ()⟩).all
        (fun ev => !(ev == .closeRemote) && !ev.isClosedObs && !(ev == .obs .connected)) = true
    ∧ (handle_connection 5 0 ⟨false, .error "refused"⟩ ⟨false, .ok (0, 0)⟩
          ⟨.ok (), .ok ()⟩).all
        (fun ev => !(ev == .closeRemote) && !ev.isClosedObs && !(ev == .obs .connected)) = true
    ∧ Obs.connectTimeout 5 ≠ Obs.failedToConnect "refused" :=
  claim_C5_connect_failure 5 0 (.ok ()) "refused" ⟨false, .ok (0, 0)⟩ ⟨.ok (), .ok ()⟩

/-- Claim C9: with a non-zero session timeout, if the timer does not elapse
before the relay completes, the handler's whole trace — observation, byte
counters, socket closes — is identical to what the `session_timeout = 0`
code path produces for the same connect and relay outcomes. -/
theorem claim_C9_nonzero_refines_zero (ct st : Nat) (cenv : ConnectEnv)
    (renv : RelayEnv) (cl : CloseEnv) (hre : renv.elapsed = false) :
    handle_connection ct st cenv renv cl = handle_connection ct 0 cenv renv cl := by
  obtain ⟨ce, cr⟩ := cenv
  cases ce
  · rcases cr with e | ⟨⟩
    · rw [handle_connection_connect_error, handle_connection_connect_error]
    · rw [handle_connection_connect_ok, handle_connection_connect_ok]
      by_cases hst : st = 0 <;> simp [relayObs, hst, hre]
  · rw [handle_connection_connect_elapsed, handle_connection_connect_elapsed]

/-- True exactly on the ctrl_c select outcome. -/
def LoopEvent.isCtrlC : LoopEvent → Bool
  | .ctrlC => true
  | _ => false

theorem acceptLoop_stopped (n : Nat) (evs : List LoopEvent) :
    (acceptLoop n evs).stopped = true ↔ LoopEvent.ctrlC ∈ evs := by
  induction evs generalizing n with
  | nil => simp [acceptLoop]
  | cons ev rest ih => cases ev <;> simp [acceptLoop, ih]

theorem acceptLoop_conns_takeWhile (n : Nat) (evs : List LoopEvent) :
    (acceptLoop n evs).conns =
      (acceptLoop n (evs.takeWhile (fun ev => !ev.isCtrlC))).conns := by
  induction evs generalizing n with
  | nil => rfl
  | cons ev rest ih =>
      cases ev <;>
        simp [acceptLoop, List.takeWhile_cons, LoopEvent.isCtrlC, ih]

theorem mem_drainLog (results : List (Except IOError Unit)) (e : IOError) :
    MainLog.taskFailed e ∈ drainLog results ↔ Except.error e ∈ results := by
  induction results with
  | nil => simp [drainLog]
  | cons r rest ih => rcases r with e2 | ⟨⟩ <;> simp [drainLog, ih]

theorem acceptLoop_skip_error (n : Nat) (evs₁ evs₂ : List LoopEvent) (e : IOError)
    (h1 : LoopEvent.ctrlC ∉ evs₁) :
    MainLog.acceptFailed e ∈ (acceptLoop n (evs₁ ++ .acceptErr e :: evs₂)).log
    ∧ (acceptLoop n (evs₁ ++ .acceptErr e :: evs₂)).conns =
        (acceptLoop n (evs₁ ++ evs₂)).conns := by
  induction evs₁ generalizing n with
  | nil => simp [acceptLoop]
  | cons ev rest ih =>
      cases ev with
      | ctrlC => exact absurd (List.mem_cons_self _ _) h1
      | acceptOk c =>
          have h1' : LoopEvent.ctrlC ∉ rest := fun hm => h1 (List.mem_cons_of_mem _ hm)
          have := ih ((n + 1) % u64Size) h1'
          simp [acceptLoop, this.1, this.2]
      | acceptErr e2 =>
          have h1' : LoopEvent.ctrlC ∉ rest := fun hm => h1 (List.mem_cons_of_mem _ hm)
          have := ih n h1'
          simp [acceptLoop, this.1, this.2]

/-- Claim C6: once ctrl_c is received, `main` returns: no event after the
signal contributes an accepted connection, every join result of the spawned
tasks is processed — a task failure is logged as an error without stopping
the drain — and the run ends with the shutdown-complete line and exit
status 0 regardless of task failures. -/
theorem claim_C6_graceful_shutdown (events : List LoopEvent)
    (results : List (Except IOError Unit)) (hsig : LoopEvent.ctrlC ∈ events) :
    runMain events results =
      some ⟨(acceptLoop 1 events).log ++ drainLog results ++ [.shutdownComplete], 0⟩
    ∧ ((acceptLoop 1 events).log ++ drainLog results ++
        [MainLog.shutdownComplete]).getLast? = some .shutdownComplete
    ∧ (∀ e, Except.error e ∈ results → MainLog.taskFailed e ∈ drainLog results)
    ∧ (acceptLoop 1 events).conns =
        (acceptLoop 1 (events.takeWhile (fun ev => !ev.isCtrlC))).conns := by
  refine ⟨?_, ?_, ?_, acceptLoop_conns_takeWhile 1 events⟩
  · simp [runMain, (acceptLoop_stopped 1 events).mpr hsig]
  · rw [List.getLast?_concat]
  · exact fun e he => (mem_drainLog results e).mpr he

theorem claim_C6_graceful_shutdown_witness :
    runMain [.acceptOk "a", .ctrlC, .acceptOk "b"] [.error "panic"] =
      some ⟨(acceptLoop 1 [.acceptOk "a", .ctrlC, .acceptOk "b"]).log ++
              drainLog [.error "panic"] ++ [.shutdownComplete], 0⟩
    ∧ ((acceptLoop 1 [.acceptOk "a", .ctrlC, .acceptOk "b"]).log ++
        drainLog [.error "panic"] ++
        [MainLog.shutdownComplete]).getLast? = some .shutdownComplete
    ∧ (∀ e, Except.error e ∈ ([.error "panic"] : List (Except IOError Unit)) →
        MainLog.taskFailed e ∈ drainLog [.error "panic"])
    ∧ (acceptLoop 1 [.acceptOk "a", .ctrlC, .acceptOk "b"]).conns =
        (acceptLoop 1
          (([.acceptOk "a", .ctrlC, .acceptOk "b"] : List LoopEvent).takeWhile
            (fun ev => !ev.isCtrlC))).conns :=
  claim_C6_graceful_shutdown [.acceptOk "a", .ctrlC, .acceptOk "b"] [.error "panic"]
    (by decide)

/-- Claim C7: the accept loop breaks exactly when the ctrl_c signal arrives
— for any finite sequence of select outcomes the loop has stopped iff the
signal is among them — and an accept failure merely logs a warning: the
connections accepted afterwards are the same as if the failing accept had
not happened. -/
theorem claim_C7_accept_failure_nonfatal (n : Nat) (evs evs₁ evs₂ : List LoopEvent)
    (e : IOError) (h1 : LoopEvent.ctrlC ∉ evs₁) :
    ((acceptLoop n evs).stopped = true ↔ LoopEvent.ctrlC ∈ evs)
    ∧ MainLog.acceptFailed e ∈ (acceptLoop n (evs₁ ++ .acceptErr e :: evs₂)).log
    ∧ (acceptLoop n (evs₁ ++ .acceptErr e :: evs₂)).conns =
        (acceptLoop n (evs₁ ++ evs₂)).conns :=
  ⟨acceptLoop_stopped n evs,
    (acceptLoop_skip_error n evs₁ evs₂ e h1).1,
    (acceptLoop_skip_error n evs₁ evs₂ e h1).2⟩

theorem claim_C7_accept_failure_nonfatal_witness :
    ((acceptLoop 1 [.acceptErr "x", .acceptOk "a"]).stopped = true ↔
        LoopEvent.ctrlC ∈ ([.acceptErr "x", .acceptOk "a"] : List LoopEvent))
    ∧ MainLog.acceptFailed "x" ∈
        (acceptLoop 1 (([LoopEvent.acceptOk "a"] : List LoopEvent) ++
          .acceptErr "x" :: [.acceptOk "b", .ctrlC])).log
    ∧ (acceptLoop 1 (([LoopEvent.acceptOk "a"] : List LoopEvent) ++
          .acceptErr "x" :: [.acceptOk "b", .ctrlC])).conns =
        (acceptLoop 1 (([LoopEvent.acceptOk "a"] : List LoopEvent) ++
          [.acceptOk "b", .ctrlC])).conns :=
  claim_C7_accept_failure_nonfatal 1 [.acceptErr "x", .acceptOk "a"]
    [LoopEvent.acceptOk "a"] [.acceptOk "b", .ctrlC] "x" (by decide)

theorem claim_C9_nonzero_refines_zero_witness :
    handle_connection 5 2 ⟨false, .ok ()⟩ ⟨false, .error "reset"⟩ ⟨.ok (), .ok ()⟩ =
      handle_connection 5 0 ⟨false, .ok ()⟩ ⟨false, .error "reset"⟩ ⟨.ok (), .ok ()⟩ :=
  claim_C9_nonzero_refines_zero 5 2 ⟨false, .ok ()⟩ ⟨false, .error "reset"⟩
    ⟨.ok (), .ok ()⟩ rfl

theorem u64Size_pos : 0 < u64Size := by
  simp [u64Size]

theorem acceptLoop_ids (n : Nat) (evs : List LoopEvent) (hn : n < u64Size) :
    (acceptLoop n evs).conns.map Prod.fst =
      (List.range (acceptLoop n evs).conns.length).map (fun i => (n + i) % u64Size) := by
  induction evs generalizing n with
  | nil => simp [acceptLoop]
  | cons ev rest ih =>
      cases ev with
      | ctrlC => simp [acceptLoop]
      | acceptErr e => simpa [acceptLoop] using ih n hn
      | acceptOk c =>
          have hn' : (n + 1) % u64Size < u64Size := Nat.mod_lt _ u64Size_pos
          have htail := ih ((n + 1) % u64Size) hn'
          simp only [acceptLoop, List.map_cons, List.length_cons, htail,
            List.range_succ_eq_map, List.map_map]
          refine congrArg₂ _ ?_ ?_
          · simpa using (Nat.mod_eq_of_lt hn).symm
          · refine List.map_congr_left fun i _ => ?_
            simp only [Function.comp]
            rw [Nat.mod_add_mod]
            congr 1
            omega

theorem acceptLoop_replicate_length (n k : Nat) (c : String) :
    (acceptLoop n (List.replicate k (LoopEvent.acceptOk c))).conns.length = k := by
  induction k generalizing n with
  | zero => simp [acceptLoop]
  | succ k ih => simp [List.replicate_succ, acceptLoop, ih]

theorem acceptLoop_replicate_id (k j : Nat) (c : String) (hj : j < k) :
    ((acceptLoop 1 (List.replicate k (LoopEvent.acceptOk c))).conns.map Prod.fst)[j]? =
      some ((1 + j) % u64Size) := by
  rw [acceptLoop_ids 1 _ (by simp [u64Size]), acceptLoop_replicate_length,
    List.getElem?_map, List.getElem?_range hj]
  rfl

/-- Claim C8 counterexample: after the `u64` counter wraps, two distinct
accepted connections of the same run carry the same connection id — in a
run of 2 ^ 64 + 1 successful accepts, the first and the last connection
both get id 1 (so ids are neither pairwise distinct nor increasing). -/
theorem claim_C8_counterexample :
    (((acceptLoop 1 (List.replicate (2 ^ 64 + 1) (LoopEvent.acceptOk "c"))).conns.map
        Prod.fst)[0]? = some 1)
    ∧ (((acceptLoop 1 (List.replicate (2 ^ 64 + 1) (LoopEvent.acceptOk "c"))).conns.map
        Prod.fst)[2 ^ 64]? = some 1) := by
  constructor
  · rw [acceptLoop_replicate_id (2 ^ 64 + 1) 0 "c" (by omega)]
    norm_num [u64Size]
  · rw [acceptLoop_replicate_id (2 ^ 64 + 1) (2 ^ 64) "c" (by omega)]
    norm_num [u64Size, Nat.add_comm 1 (2 ^ 64), Nat.add_mod_left]

/-- Claim C8 (amended): in any run whose number of successful accepts stays
below 2 ^ 64 (the `u64` counter does not wrap), the connection ids are
strictly increasing in accept order, hence pairwise distinct. -/
theorem claim_C8_ids_distinct (evs : List LoopEvent)
    (h : (acceptLoop 1 evs).conns.length < u64Size) :
    ((acceptLoop 1 evs).conns.map Prod.fst).Pairwise (· < ·)
    ∧ ((acceptLoop 1 evs).conns.map Prod.fst).Nodup := by
  have hids := acceptLoop_ids 1 evs (by simp [u64Size])
  have hplain : (acceptLoop 1 evs).conns.map Prod.fst =
      (List.range (acceptLoop 1 evs).conns.length).map (fun i => 1 + i) := by
    rw [hids]
    refine List.map_congr_left fun i hi => ?_
    have : i < (acceptLoop 1 evs).conns.length := List.mem_range.mp hi
    exact Nat.mod_eq_of_lt (by omega)
  have hpw : ((acceptLoop 1 evs).conns.map Prod.fst).Pairwise (· < ·) := by
    rw [hplain]
    exact (List.pairwise_lt_range _).map _ fun a b hab => by omega
  exact ⟨hpw, hpw.imp Nat.ne_of_lt⟩

theorem claim_C8_ids_distinct_witness :
    ((acceptLoop 1 [.acceptOk "a", .acceptErr "x", .acceptOk "b", .ctrlC]).conns.map
        Prod.fst).Pairwise (· < ·)
    ∧ ((acceptLoop 1 [.acceptOk "a", .acceptErr "x", .acceptOk "b", .ctrlC]).conns.map
        Prod.fst).Nodup :=
  claim_C8_ids_distinct [.acceptOk "a", .acceptErr "x", .acceptOk "b", .ctrlC]
    (by norm_num [acceptLoop, u64Size])

/-- Claim C10 counterexample: the id assignment is consecutive only below
the `u64` modulus — in a run of exactly 2 ^ 64 successful accepts, the
2 ^ 64-th accepted connection receives id 0, not 2 ^ 64. -/
theorem claim_C10_counterexample :
    (((acceptLoop 1 (List.replicate (2 ^ 64) (LoopEvent.acceptOk "d"))).conns.map
        Prod.fst)[2 ^ 64 - 1]? = some 0)
    ∧ (0 : Nat) ≠ 2 ^ 64 := by
  refine ⟨?_, by norm_num⟩
  rw [acceptLoop_replicate_id (2 ^ 64) (2 ^ 64 - 1) "d" (by omega)]
  norm_num [u64Size, show 1 + (2 ^ 64 - 1) = 2 ^ 64 by omega]

/-- Claim C10 (amended): the counter starts at 1 and only a successful
accept advances it, so in any run the k-th successfully accepted connection
(k = i + 1 here, counting from 1) receives id k, for every k below 2 ^ 64;
at the 2 ^ 64-th accept the `u64` counter wraps to 0. -/
theorem claim_C10_ids_consecutive (evs : List LoopEvent) (i : Nat)
    (hi : i < (acceptLoop 1 evs).conns.length) (hk : i + 1 < u64Size) :
    ((acceptLoop 1 evs).conns.map Prod.fst)[i]? = some (i + 1) := by
  rw [acceptLoop_ids 1 evs (by simp [u64Size]), List.getElem?_map,
    List.getElem?_range hi]
  show some ((1 + i) % u64Size) = some (i + 1)
  rw [Nat.add_comm 1 i, Nat.mod_eq_of_lt hk]

theorem claim_C10_ids_consecutive_witness :
    ((acceptLoop 1 [.acceptErr "x", .acceptOk "a", .acceptOk "b"]).conns.map
        Prod.fst)[1]? = some 2 :=
  claim_C10_ids_consecutive [.acceptErr "x", .acceptOk "a", .acceptOk "b"] 1
    (by norm_num [acceptLoop]) (by norm_num [u64Size])

end TcpProxy
